import Mathlib

/-!
Shallow embedding of the reference-quantized-layer and dynamic-tracing quantization
code of this repository:
  * `torch/nn/quantized/_reference/modules/linear.py`  (class `Linear`)
  * `torch/nn/quantized/_reference/modules/conv.py`    (`_ConvNd`, `Conv1d/2d/3d`)
  * `torch/quantization/dynamic_tracing/utils.py`      (trace-error helpers, `SeenOp`,
    `QTensorInfo`, `func_or_mod_needs_quantization`)
  * `torch/quantization/_quantize_dynamic_tracing.py`  (`prepare`, `convert`)

Tensors are modelled over the rationals: a weight is a matrix of rationals (`Mat`), a
bias a vector (`Vec`).  Python's fallible operations (attribute access on an absent
attribute, dict access on an absent key, failing `assert`, `raise`) are modelled with
`Except PyErr`.  Helper code of this repository that is not in the provided sources
(`_reference/modules/utils.py`, `dynamic_tracing/mappings.py`, `auto_trace.py`, and the
generic framework collaborators) is modelled from the spec; each such definition carries
a doc comment saying so.
-/

namespace Pytorch

/-- Python-level errors raised by the modelled code. -/
inductive PyErr where
  | attributeError (name : String)
  | keyError (name : String)
  | assertionError (msg : String)
  | runtimeError (msg : String)
deriving DecidableEq

/-- The torch quantization schemes that appear in the sources
(`torch.per_tensor_affine`, `torch.per_channel_affine`) together with the
symmetric schemes, which exist in torch but are *not* in the supported list. -/
inductive QScheme where
  | per_tensor_affine
  | per_channel_affine
  | per_tensor_symmetric
  | per_channel_symmetric
deriving DecidableEq

/-- The torch dtypes the sources mention.  `weight_qscheme = none` models Python `None`. -/
inductive DType where
  | quint8
  | qint8
  | float32
deriving DecidableEq

/-- A matrix of rationals: the value of a 2-d floating point tensor. -/
abbrev Mat := List (List ℚ)

/-- A vector of rationals: the value of a 1-d floating point tensor. -/
abbrev Vec := List ℚ

/-- A torch tensor: its numeric payload plus the autograd bookkeeping relevant to
`detach` / `torch.nn.Parameter` (`grad_fn = none` means the tensor is a leaf with no
autograd history). -/
structure Tensor (α : Type) where
  data : α
  requires_grad : Bool
  grad_fn : Option ℕ
deriving DecidableEq

/-- `Tensor.detach()`: same data, no gradient requirement, no autograd history. -/
def Tensor.detach {α : Type} (t : Tensor α) : Tensor α :=
  { data := t.data, requires_grad := false, grad_fn := none }

/-- `torch.nn.Parameter(t)`: a fresh leaf parameter over the same data
(`requires_grad` defaults to true, no autograd history carried over). -/
def Parameter {α : Type} (t : Tensor α) : Tensor α :=
  { data := t.data, requires_grad := true, grad_fn := none }

/-- The value stored in a registered qparam buffer: `torch.tensor(x)` of either a
scalar (per-tensor scale / zero point) or a 1-d tensor (per-channel scales / zero
points). -/
inductive BufVal where
  | scalar (x : ℚ)
  | vector (xs : List ℚ)
deriving DecidableEq

/-- The `weight_qparams` dict passed to the reference-layer constructors.  Python dict
keys that may be absent are `Option` fields; reading an absent key is a `KeyError`. -/
structure WeightQParams where
  qscheme : Option QScheme
  dtype : DType
  scale : Option BufVal
  zero_point : Option BufVal
  axis : Option ℕ
deriving DecidableEq

/-- `weight_qparams[key]`: Python dict item access, `KeyError` when the key is absent. -/
def dictGet {α : Type} (v : Option α) (key : String) : Except PyErr α :=
  match v with
  | some x => Except.ok x
  | none => Except.error (PyErr.keyError key)

/-- `self.name`: Python attribute access, `AttributeError` when the attribute (here: a
buffer that was never registered) is absent. -/
def attrOrError {α : Type} (v : Option α) (name : String) : Except PyErr α :=
  match v with
  | some x => Except.ok x
  | none => Except.error (PyErr.attributeError name)

/-- The default `weight_qparams` dict both constructors build when the caller passes
`None` (linear.py lines 24-30, conv.py lines 34-40). -/
def default_weight_qparams : WeightQParams :=
  { qscheme := some QScheme.per_tensor_affine, dtype := DType.quint8,
    scale := some (BufVal.scalar 1), zero_point := some (BufVal.scalar 0), axis := none }

/-- Membership test of the constructor assertion
`self.weight_qscheme in [None, torch.per_tensor_affine, torch.per_channel_affine]`. -/
def schemeSupported : Option QScheme → Bool
  | none => true
  | some QScheme.per_tensor_affine => true
  | some QScheme.per_channel_affine => true
  | some _ => false

/-- The qparam attributes a reference layer carries after construction; an `Option`
field is `none` exactly when the corresponding buffer was never registered. -/
structure QparamFields where
  weight_qscheme : Option QScheme
  weight_dtype : DType
  weight_scale : Option BufVal
  weight_zero_point : Option BufVal
  weight_axis : Option ℕ
deriving DecidableEq

/-- The weight-qparam part of the constructors: `Linear.__init__` (linear.py lines
24-42) and `_ConvNd._init_weight_qparams` (conv.py lines 33-52) contain this exact
code, duplicated textually in the two files (including the assertion message, which
says "linear" in both).  The interpolated scheme value in the assertion message is
elided.  The assertion runs before any buffer is registered, and for a `None` scheme
no `weight_scale` / `weight_zero_point` / `weight_axis` buffer is registered at all;
under `per_channel_affine` the `"axis"` dict key is read, otherwise the placeholder
`torch.tensor(0)` is registered. -/
def init_weight_qparams (weight_qparams : Option WeightQParams) :
    Except PyErr QparamFields := do
  let qp := weight_qparams.getD default_weight_qparams
  if schemeSupported qp.qscheme then
    match qp.qscheme with
    | none =>
      Except.ok { weight_qscheme := none, weight_dtype := qp.dtype,
                  weight_scale := none, weight_zero_point := none, weight_axis := none }
    | some sch => do
      let scale ← dictGet qp.scale "scale"
      let zero_point ← dictGet qp.zero_point "zero_point"
      if sch = QScheme.per_channel_affine then do
        let ax ← dictGet qp.axis "axis"
        Except.ok { weight_qscheme := some sch, weight_dtype := qp.dtype,
                    weight_scale := some scale, weight_zero_point := some zero_point,
                    weight_axis := some ax }
      else
        Except.ok { weight_qscheme := some sch, weight_dtype := qp.dtype,
                    weight_scale := some scale, weight_zero_point := some zero_point,
                    weight_axis := some 0 }
  else
    Except.error (PyErr.assertionError
      "qscheme is not support in reference quantized linear module")

/-- An all-zero matrix, standing for the freshly initialised weight the external
`nn.Linear.__init__` / `nn.ConvNd.__init__` allocate (the claims never look at these
initial values: `from_float` overwrites them). -/
def zerosMat (rows cols : ℕ) : Mat :=
  List.replicate rows (List.replicate cols 0)

/-- An all-zero vector, standing for a freshly initialised bias. -/
def zerosVec (n : ℕ) : Vec :=
  List.replicate n 0

/-- Modelled from the spec: the elementwise affine quantize-then-dequantize the numeric
tensor library provides (glossary: quantize maps `x` to `round(x/scale) + zero_point`,
dequantize maps `q` back to `(q - zero_point) * scale`; section 6 lists these
primitives as supplied by the external tensor library, whose integer-range details are
out of scope).  Composed on one element. -/
def qdq1 (scale zero_point x : ℚ) : ℚ :=
  (((round (x / scale) : ℤ) : ℚ) + zero_point - zero_point) * scale

/-- Modelled from the spec: the per-channel variant of the library primitive — one
scale / zero-point pair per slice along the chosen axis (glossary, "per-tensor vs
per-channel affine"), on a 2-d weight. -/
def perChannelQdq (scales zero_points : List ℚ) (axis : ℕ) (data : Mat) : Mat :=
  if axis = 0 then
    List.zipWith (fun row sz => row.map (qdq1 sz.1 sz.2)) data (scales.zip zero_points)
  else
    data.map (fun row => List.zipWith (fun x sz => qdq1 sz.1 sz.2 x) row
      (scales.zip zero_points))

/-- Modelled from the spec: `_quantize_and_dequantize_weight` lives in
`torch/nn/quantized/_reference/modules/utils.py`, which is not among the provided
sources.  Per the spec (section 4.5) it "deterministically quantizes-then-immediately-
dequantizes the weight using the stored scale/zero-point/axis", dispatching on the
scheme (none / per-tensor-affine / per-channel-affine); a `none` scheme leaves the
weight untouched.  The dtype argument selects the low-precision representation of the
external library kernel and does not enter the modelled affine arithmetic.  The
returned tensor is a fresh result of library ops, carrying no autograd history. -/
def _quantize_and_dequantize_weight (weight : Tensor Mat) (weight_qscheme : Option QScheme)
    (weight_dtype : DType) (weight_scale weight_zero_point : BufVal) (weight_axis : ℕ) :
    Except PyErr (Tensor Mat) :=
  match weight_qscheme with
  | some QScheme.per_tensor_affine =>
    match weight_scale, weight_zero_point with
    | BufVal.scalar s, BufVal.scalar z =>
      Except.ok { data := weight.data.map (fun row => row.map (qdq1 s z)),
                  requires_grad := false, grad_fn := none }
    | _, _ => Except.error (PyErr.runtimeError
        "quantize_per_tensor expects scalar scale and zero_point")
  | some QScheme.per_channel_affine =>
    match weight_scale, weight_zero_point with
    | BufVal.vector ss, BufVal.vector zs =>
      Except.ok { data := perChannelQdq ss zs weight_axis weight.data,
                  requires_grad := false, grad_fn := none }
    | _, _ => Except.error (PyErr.runtimeError
        "quantize_per_channel expects vector scale and zero_point")
  | _ => Except.ok weight

/-- The reference quantized `Linear` module (linear.py): the `nn.Linear` data
(`in_features`, `out_features`, `weight`, optional `bias`) plus the weight-qparam
attributes set by `__init__`.  A `none` buffer field means `register_buffer` was never
called for it, so Python attribute access on it raises `AttributeError`. -/
structure Linear where
  in_features : ℕ
  out_features : ℕ
  weight : Tensor Mat
  bias : Option (Tensor Vec)
  weight_qscheme : Option QScheme
  weight_dtype : DType
  weight_scale : Option BufVal
  weight_zero_point : Option BufVal
  weight_axis : Option ℕ
deriving DecidableEq

/-- `Linear.__init__` (linear.py lines 17-42): the external `nn.Linear.__init__` sets up
a fresh weight (and bias when `bias_`), then the weight-qparam code runs.  A failing
assertion or dict access surfaces as `Except.error`, in which case no module object is
produced. -/
def Linear.init (in_features out_features : ℕ) (bias_ : Bool)
    (weight_qparams : Option WeightQParams) : Except PyErr Linear := do
  let q ← init_weight_qparams weight_qparams
  Except.ok
    { in_features := in_features, out_features := out_features,
      weight := { data := zerosMat out_features in_features, requires_grad := true,
                  grad_fn := none },
      bias := if bias_ then
          some { data := zerosVec out_features, requires_grad := true, grad_fn := none }
        else none,
      weight_qscheme := q.weight_qscheme, weight_dtype := q.weight_dtype,
      weight_scale := q.weight_scale, weight_zero_point := q.weight_zero_point,
      weight_axis := q.weight_axis }

/-- `Linear.get_weight` (linear.py lines 47-50): reads the `weight_scale`,
`weight_zero_point` and `weight_axis` attributes (Python evaluates the call's
arguments first, so a missing buffer raises `AttributeError` before the helper runs)
and hands them to `_quantize_and_dequantize_weight`. -/
def Linear.get_weight (m : Linear) : Except PyErr (Tensor Mat) := do
  let ws ← attrOrError m.weight_scale "weight_scale"
  let wzp ← attrOrError m.weight_zero_point "weight_zero_point"
  let wax ← attrOrError m.weight_axis "weight_axis"
  _quantize_and_dequantize_weight m.weight m.weight_qscheme m.weight_dtype ws wzp wax

/-- `torch.nn.functional.linear` over rationals: `y i = (w i) · x`, plus the bias when
present.  This is the external floating point functional linear operator the forward
pass calls; over `ℚ` it is exact. -/
def F_linear (x : Vec) (w : Mat) (b : Option Vec) : Vec :=
  let y := w.map (fun row => (List.zipWith (fun a c => a * c) row x).sum)
  match b with
  | none => y
  | some bv => List.zipWith (fun a c => a + c) y bv

/-- `Linear.forward` (linear.py lines 52-65): quantize-dequantize the weight via
`get_weight`, then run the floating point `F.linear` on the input, the degraded
weight and the bias. -/
def Linear.forward (m : Linear) (x : Vec) : Except PyErr Vec := do
  let weight_dequant ← Linear.get_weight m
  Except.ok (F_linear x weight_dequant.data (m.bias.map Tensor.data))

/-- The float `nn.Linear` a reference layer is built `from_float`. -/
structure NNLinear where
  in_features : ℕ
  out_features : ℕ
  weight : Tensor Mat
  bias : Option (Tensor Vec)
deriving DecidableEq

/-- `Linear.from_float` (linear.py lines 81-87): construct a reference `Linear` with
the float layer's shape and `float_linear.bias is not None`, then overwrite the weight
with `torch.nn.Parameter(float_linear.weight.detach())` and, when the float layer has
a bias, likewise the bias. -/
def Linear.from_float (float_linear : NNLinear) (weight_qparams : Option WeightQParams) :
    Except PyErr Linear := do
  let qref_linear ← Linear.init float_linear.in_features float_linear.out_features
      (float_linear.bias.isSome) weight_qparams
  let qref_linear := { qref_linear with weight := Parameter float_linear.weight.detach }
  match float_linear.bias with
  | some b => Except.ok { qref_linear with bias := some (Parameter b.detach) }
  | none => Except.ok qref_linear

/-- The reference quantized conv module data (`_ConvNd` in conv.py): the convolution
configuration of the underlying `nn.ConvNd` plus the weight-qparam attributes.
Kernel size, stride, padding and dilation are the size tuples of the respective
dimension (length 1, 2 or 3); conv weights of any rank are abstracted to `Mat`. -/
structure ConvNd where
  in_channels : ℕ
  out_channels : ℕ
  kernel_size : List ℕ
  stride : List ℕ
  padding : List ℕ
  dilation : List ℕ
  groups : ℕ
  padding_mode : String
  weight : Tensor Mat
  bias : Option (Tensor Vec)
  weight_qscheme : Option QScheme
  weight_dtype : DType
  weight_scale : Option BufVal
  weight_zero_point : Option BufVal
  weight_axis : Option ℕ
deriving DecidableEq

/-- `_ConvNd._init_weight_qparams` (conv.py lines 33-52): textually the same
weight-qparam code as `Linear.__init__`, run on an already-initialised conv module. -/
def ConvNd.init_weight_qparams_ (c : ConvNd) (weight_qparams : Option WeightQParams) :
    Except PyErr ConvNd := do
  let q ← init_weight_qparams weight_qparams
  Except.ok { c with weight_qscheme := q.weight_qscheme, weight_dtype := q.weight_dtype,
                     weight_scale := q.weight_scale,
                     weight_zero_point := q.weight_zero_point,
                     weight_axis := q.weight_axis }

/-- `_ConvNd.get_weight` (conv.py lines 54-57): same as `Linear.get_weight`. -/
def ConvNd.get_weight (c : ConvNd) : Except PyErr (Tensor Mat) := do
  let ws ← attrOrError c.weight_scale "weight_scale"
  let wzp ← attrOrError c.weight_zero_point "weight_zero_point"
  let wax ← attrOrError c.weight_axis "weight_axis"
  _quantize_and_dequantize_weight c.weight c.weight_qscheme c.weight_dtype ws wzp wax

/-- `Conv1d.__init__` (conv.py lines 59-74): the external `nn.Conv1d.__init__` fills the
convolution configuration and fresh weight/bias, then `_init_weight_qparams` runs. -/
def Conv1d.init (in_channels out_channels : ℕ)
    (kernel_size stride padding dilation : List ℕ) (groups : ℕ) (bias : Bool)
    (padding_mode : String) (weight_qparams : Option WeightQParams) :
    Except PyErr ConvNd :=
  ConvNd.init_weight_qparams_
    { in_channels := in_channels, out_channels := out_channels,
      kernel_size := kernel_size, stride := stride, padding := padding,
      dilation := dilation, groups := groups, padding_mode := padding_mode,
      weight := { data := zerosMat out_channels in_channels, requires_grad := true,
                  grad_fn := none },
      bias := if bias then
          some { data := zerosVec out_channels, requires_grad := true, grad_fn := none }
        else none,
      weight_qscheme := none, weight_dtype := DType.float32,
      weight_scale := none, weight_zero_point := none, weight_axis := none }
    weight_qparams

/-- `Conv2d.__init__` (conv.py lines 114-122): same construction path as `Conv1d`,
through `nn.Conv2d.__init__` and the shared `_init_weight_qparams`. -/
def Conv2d.init (in_channels out_channels : ℕ)
    (kernel_size stride padding dilation : List ℕ) (groups : ℕ) (bias : Bool)
    (padding_mode : String) (weight_qparams : Option WeightQParams) :
    Except PyErr ConvNd :=
  Conv1d.init in_channels out_channels kernel_size stride padding dilation groups bias
    padding_mode weight_qparams

/-- `Conv3d.__init__` (conv.py lines 162-170): same construction path again. -/
def Conv3d.init (in_channels out_channels : ℕ)
    (kernel_size stride padding dilation : List ℕ) (groups : ℕ) (bias : Bool)
    (padding_mode : String) (weight_qparams : Option WeightQParams) :
    Except PyErr ConvNd :=
  Conv1d.init in_channels out_channels kernel_size stride padding dilation groups bias
    padding_mode weight_qparams

/-- The float `nn.Conv1d` a reference conv is built `from_float`. -/
structure NNConv1d where
  in_channels : ℕ
  out_channels : ℕ
  kernel_size : List ℕ
  stride : List ℕ
  padding : List ℕ
  dilation : List ℕ
  groups : ℕ
  padding_mode : String
  weight : Tensor Mat
  bias : Option (Tensor Vec)
deriving DecidableEq

/-- `Conv1d.from_float` (conv.py lines 96-112): construct a reference `Conv1d` from the
float conv's configuration and `float_conv.bias is not None`, then overwrite weight
(and bias when present) with detached parameters. -/
def Conv1d.from_float (float_conv : NNConv1d) (weight_qparams : Option WeightQParams) :
    Except PyErr ConvNd := do
  let qref_conv ← Conv1d.init float_conv.in_channels float_conv.out_channels
      float_conv.kernel_size float_conv.stride float_conv.padding float_conv.dilation
      float_conv.groups (float_conv.bias.isSome) float_conv.padding_mode weight_qparams
  let qref_conv := { qref_conv with weight := Parameter float_conv.weight.detach }
  match float_conv.bias with
  | some b => Except.ok { qref_conv with bias := some (Parameter b.detach) }
  | none => Except.ok qref_conv

/-! ### State-dict persistence (linear.py lines 67-79) -/

/-- A value stored in a state dict: the weight parameter, the bias, a qparam buffer,
the axis buffer, or the two plain qparam attributes. -/
inductive SDVal where
  | qscheme (s : Option QScheme)
  | dtype (d : DType)
  | buf (b : BufVal)
  | axisVal (a : ℕ)
  | mat (t : Tensor Mat)
  | vec (t : Tensor Vec)
deriving DecidableEq

/-- A state dict: an insertion-ordered string-keyed dictionary with unique keys
(Python `dict`). -/
abbrev StateDict := List (String × SDVal)

/-- Dict lookup on the first (unique) matching key. -/
def sdLookup (sd : StateDict) (k : String) : Option SDVal :=
  match sd with
  | [] => none
  | (k', v) :: rest => if k' = k then some v else sdLookup rest k

/-- `state_dict[k]`: item access, `KeyError` when absent. -/
def sdGetE (sd : StateDict) (k : String) : Except PyErr SDVal :=
  match sdLookup sd k with
  | some v => Except.ok v
  | none => Except.error (PyErr.keyError k)

/-- `destination[k] = v`: replace in place when the key exists, else append. -/
def sdInsert (sd : StateDict) (k : String) (v : SDVal) : StateDict :=
  match sd with
  | [] => [(k, v)]
  | (k', v') :: rest => if k' = k then (k, v) :: rest else (k', v') :: sdInsert rest k v

/-- `state_dict.pop(k)`: remove the key. -/
def sdPop (sd : StateDict) (k : String) : StateDict :=
  match sd with
  | [] => []
  | (k', v') :: rest => if k' = k then rest else (k', v') :: sdPop rest k

/-- Modelled from the spec: the generic `nn.Module._save_to_state_dict` this module's
`super()` call delegates to is an external collaborator (section 6); it persists the
module's parameters and registered buffers under the prefix. -/
def Linear.genericSave (m : Linear) (prefx : String) : StateDict :=
  [(prefx ++ "weight", SDVal.mat m.weight)]
  ++ (match m.bias with
      | some b => [(prefx ++ "bias", SDVal.vec b)]
      | none => [])
  ++ (match m.weight_scale with
      | some s => [(prefx ++ "weight_scale", SDVal.buf s)]
      | none => [])
  ++ (match m.weight_zero_point with
      | some z => [(prefx ++ "weight_zero_point", SDVal.buf z)]
      | none => [])
  ++ (match m.weight_axis with
      | some a => [(prefx ++ "weight_axis", SDVal.axisVal a)]
      | none => [])

/-- Modelled from the spec: `_save_weight_qparams` lives in
`torch/nn/quantized/_reference/modules/utils.py`, which is not among the provided
sources.  Per the spec (section 6) the persisted keys per quantized layer are
`weight_qscheme`, `weight_dtype`, `weight_scale`, `weight_zero_point`, `weight_axis`,
the axis "always stored ... for structural uniformity across export/import". -/
def _save_weight_qparams (destination : StateDict) (prefx : String)
    (weight_qscheme : Option QScheme) (weight_dtype : DType)
    (weight_scale weight_zero_point : BufVal) (weight_axis : ℕ) : StateDict :=
  sdInsert (sdInsert (sdInsert (sdInsert (sdInsert destination
    (prefx ++ "weight_qscheme") (SDVal.qscheme weight_qscheme))
    (prefx ++ "weight_dtype") (SDVal.dtype weight_dtype))
    (prefx ++ "weight_scale") (SDVal.buf weight_scale))
    (prefx ++ "weight_zero_point") (SDVal.buf weight_zero_point))
    (prefx ++ "weight_axis") (SDVal.axisVal weight_axis)

/-- `Linear._save_to_state_dict` (linear.py lines 67-69): the generic save, then
`_save_weight_qparams` with the attributes `self.weight_qscheme`, ...,
`self.weight_axis`; reading an unregistered buffer attribute raises
`AttributeError` before anything is persisted by the helper. -/
def Linear.save_to_state_dict (m : Linear) (prefx : String) : Except PyErr StateDict := do
  let destination := Linear.genericSave m prefx
  let ws ← attrOrError m.weight_scale "weight_scale"
  let wzp ← attrOrError m.weight_zero_point "weight_zero_point"
  let wax ← attrOrError m.weight_axis "weight_axis"
  Except.ok (_save_weight_qparams destination prefx m.weight_qscheme m.weight_dtype
    ws wzp wax)

/-- Modelled from the spec: `_get_weight_qparam_keys` lives in
`torch/nn/quantized/_reference/modules/utils.py`, which is not among the provided
sources; per the spec (sections 4.5 and 6) the load path must "recognize/strip" the
five persisted qparam keys. -/
def _get_weight_qparam_keys (state_dict : StateDict) (prefx : String) : List String :=
  ["weight_qscheme", "weight_dtype", "weight_scale", "weight_zero_point", "weight_axis"]

/-- `setattr(self, key, value)` for the five qparam keys: buffers become registered
(present) whether or not they were before.  A constructor-tag mismatch between key and
value cannot arise from this module's own saves and leaves the module unchanged. -/
def Linear.setQparamAttr (m : Linear) (key : String) (v : SDVal) : Linear :=
  if key = "weight_qscheme" then
    match v with
    | SDVal.qscheme s => { m with weight_qscheme := s }
    | _ => m
  else if key = "weight_dtype" then
    match v with
    | SDVal.dtype d => { m with weight_dtype := d }
    | _ => m
  else if key = "weight_scale" then
    match v with
    | SDVal.buf b => { m with weight_scale := some b }
    | _ => m
  else if key = "weight_zero_point" then
    match v with
    | SDVal.buf b => { m with weight_zero_point := some b }
    | _ => m
  else if key = "weight_axis" then
    match v with
    | SDVal.axisVal a => { m with weight_axis := some a }
    | _ => m
  else m

/-- The strip loop of `Linear._load_from_state_dict` (linear.py lines 73-75):
`for key in _get_weight_qparam_keys(state_dict, prefix): setattr(self, key,
state_dict[prefix + key]); state_dict.pop(prefix + key)`. -/
def stripQparamKeys (prefx : String) :
    List String → Linear → StateDict → Except PyErr (Linear × StateDict)
  | [], m, sd => Except.ok (m, sd)
  | k :: ks, m, sd => do
    let v ← sdGetE sd (prefx ++ k)
    stripQparamKeys prefx ks (Linear.setQparamAttr m k v) (sdPop sd (prefx ++ k))

/-- The names of the module's parameters and registered buffers, as the generic loader
sees them. -/
def Linear.localStateNames (m : Linear) : List String :=
  ["weight"]
  ++ (if m.bias.isSome then ["bias"] else [])
  ++ (if m.weight_scale.isSome then ["weight_scale"] else [])
  ++ (if m.weight_zero_point.isSome then ["weight_zero_point"] else [])
  ++ (if m.weight_axis.isSome then ["weight_axis"] else [])

/-- Modelled from the spec: the generic `nn.Module._load_from_state_dict` the
`super()` call delegates to is an external collaborator (sections 4.5 and 6); it
copies state-dict entries into the module's parameters and registered buffers and,
strict checking aside, records every state-dict key matching no prefixed parameter or
buffer name of this module in the `unexpected_keys` list (keys belonging to other
modules of a larger hierarchy are outside this model). -/
def Linear.genericLoad (m : Linear) (sd : StateDict) (prefx : String) :
    Linear × List String :=
  let m1 := match sdLookup sd (prefx ++ "weight") with
    | some (SDVal.mat t) => { m with weight := t }
    | _ => m
  let m2 := match m1.bias, sdLookup sd (prefx ++ "bias") with
    | some _, some (SDVal.vec t) => { m1 with bias := some t }
    | _, _ => m1
  let m3 := match m2.weight_scale, sdLookup sd (prefx ++ "weight_scale") with
    | some _, some (SDVal.buf b) => { m2 with weight_scale := some b }
    | _, _ => m2
  let m4 := match m3.weight_zero_point, sdLookup sd (prefx ++ "weight_zero_point") with
    | some _, some (SDVal.buf b) => { m3 with weight_zero_point := some b }
    | _, _ => m3
  let m5 := match m4.weight_axis, sdLookup sd (prefx ++ "weight_axis") with
    | some _, some (SDVal.axisVal a) => { m4 with weight_axis := some a }
    | _, _ => m4
  let local_keys := (Linear.localStateNames m5).map (fun name => prefx ++ name)
  let unexpected := (sd.map Prod.fst).filter (fun k => !local_keys.contains k)
  (m5, unexpected)

/-- `Linear._load_from_state_dict` (linear.py lines 71-79): strip and apply the five
qparam keys, then delegate to the generic loader (with strict checking off), which
reports the unexpected keys among what remains. -/
def Linear.load_from_state_dict (m : Linear) (sd : StateDict) (prefx : String) :
    Except PyErr (Linear × List String) := do
  let (m1, sd1) ← stripQparamKeys prefx (_get_weight_qparam_keys sd prefx) m sd
  Except.ok (Linear.genericLoad m1 sd1 prefx)

/-! ### Dynamic tracing (`torch/quantization/dynamic_tracing/utils.py`) -/

/-- Whether `pat` occurs at the head of `l` (character lists). -/
def leadsWith : List Char → List Char → Bool
  | [], _ => true
  | _ :: _, [] => false
  | a :: as, b :: bs => a == b && leadsWith as bs

/-- Whether `pat` occurs contiguously anywhere inside `msg` (character lists); the
formal reading of "the message names the operation". -/
def hasSubstring (pat : List Char) : List Char → Bool
  | [] => leadsWith pat []
  | c :: rest => leadsWith pat (c :: rest) || hasSubstring pat (rest)

/-- `torch.typename(func)`: operations are abstracted by their type-name string, on
which `typename` is the identity. -/
def torch_typename (func : String) : String := func

/-- `_raise_obs_not_found_error` (dynamic_tracing/utils.py lines 11-16): the
trace-exhausted failure, raised unconditionally with the source's message. -/
def _raise_obs_not_found_error (func : String) : Except PyErr Unit :=
  Except.error (PyErr.runtimeError
    ("Encountered arithmetic operation " ++ torch_typename func ++ " but we have " ++
     "encountered fewer arithmetic operations in previous calibration runs. " ++
     "This likely indicates that the program contains dynamic control flow. " ++
     " Quantization is not defined over dynamic control flow!"))

/-- `_raise_obs_op_mismatch` (dynamic_tracing/utils.py lines 18-23): the
operation-type-mismatch failure, raised unconditionally with the source's message. -/
def _raise_obs_op_mismatch (func prev_op : String) : Except PyErr Unit :=
  Except.error (PyErr.runtimeError
    ("Encountered arithmetic operation " ++ torch_typename func ++ " but previously " ++
     "recorded operation was " ++ torch_typename prev_op ++ "!. This likely indicates " ++
     "that the program contains dynamic control flow. Quantization is not " ++
     "defined over dynamic control flow!"))

/-- `SeenOp` (dynamic_tracing/utils.py lines 27-35): one record per traced arithmetic
operation. -/
structure SeenOp where
  idx : ℕ
  type : String
  input_tensor_ids : List ℕ
  output_tensor_ids : List ℕ
deriving DecidableEq

/-- `seen_op_repr` (dynamic_tracing/utils.py lines 36-40). -/
def seen_op_repr (self : SeenOp) : String :=
  "(type): " ++ self.type ++ "\n" ++
  "     (input_tensor_ids): " ++ toString self.input_tensor_ids ++ "\n" ++
  "     (output_tensor_ids): " ++ toString self.output_tensor_ids

/-- `QTensorInfo` (dynamic_tracing/utils.py lines 43-49): one record per distinct
observed tensor. -/
structure QTensorInfo where
  id : ℕ
  inf_dtype : DType
deriving DecidableEq

/-- Modelled from the spec: the consistency-checker step in VERIFYING mode lives in
`dynamic_tracing/auto_trace.py`, which is not among the provided sources.  Per the
spec (section 4.2) the encountered operation is compared positionally against the
ledger entry at the current index: a missing entry is the trace-exhausted failure and
a differing operation type the mismatch failure, both raised through the helpers of
`dynamic_tracing/utils.py` with no recovery. -/
def verifyStep (ledger : List SeenOp) (idx : ℕ) (func : String) : Except PyErr Unit :=
  match ledger[idx]? with
  | none => _raise_obs_not_found_error func
  | some seen_op =>
    if seen_op.type = func then Except.ok ()
    else _raise_obs_op_mismatch func seen_op.type

/-- A Python class a module instance may be an instance of. -/
structure ModuleType where
  id : ℕ
deriving DecidableEq

/-- A candidate passed to `func_or_mod_needs_quantization`: a callable operation or a
module instance.  `id` is its Python identity/equality class; `mro` lists every class
the candidate is an instance of (its own class and all ancestors), so `isinstance` is
a polymorphic membership test while an exact-type match would look only at the head. -/
structure Candidate where
  id : ℕ
  mro : List ModuleType
deriving DecidableEq

/-- Python `isinstance(candidate, module_type)`. -/
def isinstance (func_or_mod : Candidate) (module_type : ModuleType) : Bool :=
  func_or_mod.mro.contains module_type

/-- Modelled from the spec: the registry tables `functions_supported_by_quantization`
and `module_types_supported_by_quantization` live in `dynamic_tracing/mappings.py`,
which is not among the provided sources; per the spec (section 4.1) they are static
tables, abstracted here as the two fields of a record. -/
structure Registry where
  functions_supported_by_quantization : List Candidate
  module_types_supported_by_quantization : List ModuleType

/-- `func_or_mod_needs_quantization` (dynamic_tracing/utils.py lines 52-58): exact
membership in the function table, else an `isinstance` scan over the module-type
table. -/
def func_or_mod_needs_quantization (R : Registry) (func_or_mod : Candidate) : Bool :=
  if func_or_mod ∈ R.functions_supported_by_quantization then true
  else R.module_types_supported_by_quantization.any (fun module_type =>
    isinstance func_or_mod module_type)

/-! ### The `prepare` / `convert` wrappers (`_quantize_dynamic_tracing.py`) -/

/-- The observable state of a caller's model as it moves through the quantization
pipeline: which passes have been applied to it. -/
structure Model where
  observed : Bool := false
  converted : Bool := false
  auto_observed : Bool := false
  auto_converted : Bool := false
deriving DecidableEq

/-- Modelled from the spec: `torch.quantization.prepare` is the generic framework
collaborator (section 6) whose output this core wraps; it inserts generic observer
scaffolding.  `inplace=True` instruments the caller's model object itself and returns
it; `inplace=False` works on a copy.  The result pair is (state of the caller's model
object after the call, returned model). -/
def torch_quantization_prepare (model : Model) (inplace : Bool)
    (allow_list observer_non_leaf_module_list prepare_custom_config_dict : Option Unit) :
    Model × Model :=
  let r := { model with observed := true }
  if inplace then (r, r) else (model, r)

/-- Modelled from the spec: `torch.quantization.convert`, the generic conversion
collaborator (section 6), with the same in-place semantics. -/
def torch_quantization_convert (module : Model) (mapping : Option Unit) (inplace : Bool)
    (remove_qconfig : Bool) (convert_custom_config_dict : Option Unit) :
    Model × Model :=
  let r := { module with converted := true }
  if inplace then (r, r) else (module, r)

/-- Modelled from the spec: `add_auto_observation` lives in
`dynamic_tracing/auto_trace.py`, which is not among the provided sources; per the spec
(section 4.3) it returns a new wrapped model and does not mutate its argument. -/
def add_auto_observation (model : Model) (example_inputs : List ℚ) : Model :=
  { model with auto_observed := true }

/-- Modelled from the spec: `add_auto_convert` (`dynamic_tracing/auto_trace.py`, not
among the provided sources); per the spec (section 4.4) it returns a new wrapped model
and does not mutate its argument. -/
def add_auto_convert (module : Model) : Model :=
  { module with auto_converted := true }

/-- `prepare` (_quantize_dynamic_tracing.py lines 6-24): assert `example_inputs` is
given, call the generic `torch.quantization.prepare` forwarding the caller's
`inplace` flag, only then `assert not inplace`, and finally wrap with
`add_auto_observation`.  The result pair is (state of the caller's model object after
the call, result or assertion failure). -/
def prepare (model : Model) (example_inputs : Option (List ℚ)) (inplace : Bool)
    (allow_list observer_non_leaf_module_list prepare_custom_config_dict : Option Unit) :
    Model × Except PyErr Model :=
  match example_inputs with
  | none => (model, Except.error (PyErr.assertionError "example_inputs must be specified"))
  | some ei =>
    let (caller, model1) := torch_quantization_prepare model inplace allow_list
      observer_non_leaf_module_list prepare_custom_config_dict
    if inplace then (caller, Except.error (PyErr.assertionError "assert not inplace"))
    else (caller, Except.ok (add_auto_observation model1 ei))

/-- `convert` (_quantize_dynamic_tracing.py lines 27-39): call the generic
`torch.quantization.convert` forwarding the caller's `inplace` flag, only then
`assert not inplace`, and finally wrap with `add_auto_convert`. -/
def convert (module : Model) (mapping : Option Unit) (inplace : Bool)
    (remove_qconfig : Bool) (convert_custom_config_dict : Option Unit) :
    Model × Except PyErr Model :=
  let (caller, model1) := torch_quantization_convert module mapping inplace
    remove_qconfig convert_custom_config_dict
  if inplace then (caller, Except.error (PyErr.assertionError "assert not inplace"))
  else (caller, Except.ok (add_auto_convert model1))

/-! ### Concrete inputs used by witnesses and counterexamples -/

/-- A one-channel reference conv record (qparam attributes still unset). -/
def convBlank : ConvNd :=
  { in_channels := 1, out_channels := 1, kernel_size := [1], stride := [1],
    padding := [0], dilation := [1], groups := 1, padding_mode := "zeros",
    weight := { data := [[0]], requires_grad := true, grad_fn := none }, bias := none,
    weight_qscheme := none, weight_dtype := DType.float32, weight_scale := none,
    weight_zero_point := none, weight_axis := none }

/-- A `weight_qparams` dict with an unsupported (symmetric) scheme. -/
def qpSymmetric : WeightQParams :=
  { qscheme := some QScheme.per_tensor_symmetric, dtype := DType.quint8,
    scale := some (BufVal.scalar 1), zero_point := some (BufVal.scalar 0), axis := none }

/-- A `weight_qparams` dict with scheme `None`. -/
def qpNone : WeightQParams :=
  { qscheme := none, dtype := DType.quint8, scale := none, zero_point := none,
    axis := none }

/-- A per-tensor-affine `weight_qparams` dict with scale 1 and zero point 0. -/
def qpPerTensor : WeightQParams :=
  { qscheme := some QScheme.per_tensor_affine, dtype := DType.quint8,
    scale := some (BufVal.scalar 1), zero_point := some (BufVal.scalar 0), axis := none }

/-- A per-channel-affine `weight_qparams` dict with per-channel scales on axis 0. -/
def qpPerChannel : WeightQParams :=
  { qscheme := some QScheme.per_channel_affine, dtype := DType.qint8,
    scale := some (BufVal.vector [1, 2]), zero_point := some (BufVal.vector [0, 1]),
    axis := some 0 }

/-- A concrete per-tensor-affine reference Linear layer (scale 1, zero point 0,
placeholder axis 0) with weight `[[1/2, 3]]` and bias `[1]`. -/
def linPT : Linear :=
  { in_features := 2, out_features := 1,
    weight := { data := [[1/2, 3]], requires_grad := true, grad_fn := none },
    bias := some { data := [1], requires_grad := true, grad_fn := none },
    weight_qscheme := some QScheme.per_tensor_affine, weight_dtype := DType.quint8,
    weight_scale := some (BufVal.scalar 1), weight_zero_point := some (BufVal.scalar 0),
    weight_axis := some 0 }

/-- A concrete per-tensor-affine reference conv layer (scale 1, zero point 0,
placeholder axis 0) with weight `[[1/3]]` and no bias. -/
def convPT : ConvNd :=
  { in_channels := 1, out_channels := 1, kernel_size := [1], stride := [1],
    padding := [0], dilation := [1], groups := 1, padding_mode := "zeros",
    weight := { data := [[1/3]], requires_grad := true, grad_fn := none }, bias := none,
    weight_qscheme := some QScheme.per_tensor_affine, weight_dtype := DType.quint8,
    weight_scale := some (BufVal.scalar 1), weight_zero_point := some (BufVal.scalar 0),
    weight_axis := some 0 }

/-- A concrete float `nn.Linear` whose weight and bias carry autograd history. -/
def flW : NNLinear :=
  { in_features := 2, out_features := 1,
    weight := { data := [[5, 7]], requires_grad := true, grad_fn := some 3 },
    bias := some { data := [11], requires_grad := true, grad_fn := some 4 } }

/-- A concrete float `nn.Conv1d` without bias whose weight carries autograd history. -/
def fcW : NNConv1d :=
  { in_channels := 1, out_channels := 1, kernel_size := [2], stride := [1],
    padding := [0], dilation := [1], groups := 1, padding_mode := "zeros",
    weight := { data := [[9]], requires_grad := true, grad_fn := some 5 }, bias := none }

/-- The reference Linear `from_float flW qpPerTensor` produces. -/
def mW : Linear :=
  { in_features := 2, out_features := 1,
    weight := { data := [[5, 7]], requires_grad := true, grad_fn := none },
    bias := some { data := [11], requires_grad := true, grad_fn := none },
    weight_qscheme := some QScheme.per_tensor_affine, weight_dtype := DType.quint8,
    weight_scale := some (BufVal.scalar 1), weight_zero_point := some (BufVal.scalar 0),
    weight_axis := some 0 }

/-- The reference conv `Conv1d.from_float fcW qpPerTensor` produces. -/
def cW : ConvNd :=
  { in_channels := 1, out_channels := 1, kernel_size := [2], stride := [1],
    padding := [0], dilation := [1], groups := 1, padding_mode := "zeros",
    weight := { data := [[9]], requires_grad := true, grad_fn := none }, bias := none,
    weight_qscheme := some QScheme.per_tensor_affine, weight_dtype := DType.quint8,
    weight_scale := some (BufVal.scalar 1), weight_zero_point := some (BufVal.scalar 0),
    weight_axis := some 0 }

/-- The reference Linear `Linear.init 1 1 false qpPerTensor` produces. -/
def mPT3 : Linear :=
  { in_features := 1, out_features := 1,
    weight := { data := [[0]], requires_grad := true, grad_fn := none }, bias := none,
    weight_qscheme := some QScheme.per_tensor_affine, weight_dtype := DType.quint8,
    weight_scale := some (BufVal.scalar 1), weight_zero_point := some (BufVal.scalar 0),
    weight_axis := some 0 }

/-- The reference Linear `Linear.init 1 1 false qpPerChannel` produces. -/
def mPC3 : Linear :=
  { in_features := 1, out_features := 1,
    weight := { data := [[0]], requires_grad := true, grad_fn := none }, bias := none,
    weight_qscheme := some QScheme.per_channel_affine, weight_dtype := DType.qint8,
    weight_scale := some (BufVal.vector [1, 2]),
    weight_zero_point := some (BufVal.vector [0, 1]), weight_axis := some 0 }

/-- The message `_raise_obs_not_found_error` produces for an encountered operation
named `opB`, written out. -/
def exhaustedMsgOpB : String :=
  "Encountered arithmetic operation opB but we have encountered fewer arithmetic operations in previous calibration runs. This likely indicates that the program contains dynamic control flow.  Quantization is not defined over dynamic control flow!"

/-- A one-entry ledger whose only recorded operation is named `opA`. -/
def ledgerOpA : List SeenOp :=
  [{ idx := 0, type := "opA", input_tensor_ids := [], output_tensor_ids := [] }]

/-! ### Helper lemmas -/

theorem exceptOkBind {ε α β : Type} (a : α) (f : α → Except ε β) :
    (Except.ok a : Except ε α) >>= f = f a := rfl

theorem exceptErrorBind {ε α β : Type} (e : ε) (f : α → Except ε β) :
    (Except.error e : Except ε α) >>= f = Except.error e := rfl

theorem leadsWith_append (p rest : List Char) : leadsWith p (p ++ rest) = true := by
  induction p with
  | nil => rfl
  | cons a as ih => simp [leadsWith, ih]

theorem hasSubstring_head (p rest : List Char) : hasSubstring p (p ++ rest) = true := by
  have h := leadsWith_append p rest
  cases hpr : p ++ rest with
  | nil => rw [hpr] at h; simp [hasSubstring, h]
  | cons c t => rw [hpr] at h; simp [hasSubstring, h]

theorem hasSubstring_append_left (x : List Char) {p y : List Char}
    (h : hasSubstring p y = true) : hasSubstring p (x ++ y) = true := by
  induction x with
  | nil => simpa using h
  | cons c t ih =>
    simp only [List.cons_append, hasSubstring, Bool.or_eq_true]
    exact Or.inr ih

theorem get_weight_per_tensor (m : Linear) (s z : ℚ) (ax : ℕ)
    (hq : m.weight_qscheme = some QScheme.per_tensor_affine)
    (hs : m.weight_scale = some (BufVal.scalar s))
    (hz : m.weight_zero_point = some (BufVal.scalar z))
    (ha : m.weight_axis = some ax) :
    Linear.get_weight m = Except.ok
      { data := m.weight.data.map (fun row => row.map (qdq1 s z)),
        requires_grad := false, grad_fn := none } := by
  simp [Linear.get_weight, attrOrError, hq, hs, hz, ha,
    _quantize_and_dequantize_weight, exceptOkBind]

theorem conv_get_weight_per_tensor (c : ConvNd) (s z : ℚ) (ax : ℕ)
    (hq : c.weight_qscheme = some QScheme.per_tensor_affine)
    (hs : c.weight_scale = some (BufVal.scalar s))
    (hz : c.weight_zero_point = some (BufVal.scalar z))
    (ha : c.weight_axis = some ax) :
    ConvNd.get_weight c = Except.ok
      { data := c.weight.data.map (fun row => row.map (qdq1 s z)),
        requires_grad := false, grad_fn := none } := by
  simp [ConvNd.get_weight, attrOrError, hq, hs, hz, ha,
    _quantize_and_dequantize_weight, exceptOkBind]

theorem qdq1_one_zero_near (x : ℚ) : |qdq1 1 0 x - x| ≤ 1 := by
  have h := abs_sub_round x
  have he : qdq1 1 0 x = ((round x : ℤ) : ℚ) := by
    simp [qdq1]
  rw [he, abs_sub_comm]
  exact h.trans (by norm_num)

theorem qdq_mat_entry_near (w : Mat) (i j : ℕ) :
    |(((w.map (fun row => row.map (qdq1 1 0))).getD i []).getD j 0) -
      ((w.getD i []).getD j 0)| ≤ 1 := by
  rcases hi : w[i]? with _ | row
  · have hmi : (w.map (fun row => row.map (qdq1 1 0)))[i]? = none := by
      simp [List.getElem?_map, hi]
    simp [List.getD_eq_getElem?_getD, hi, hmi]
  · have hmi : (w.map (fun row => row.map (qdq1 1 0)))[i]? =
        some (row.map (qdq1 1 0)) := by
      simp [List.getElem?_map, hi]
    rcases hj : row[j]? with _ | x
    · have hmj : (row.map (qdq1 1 0))[j]? = none := by
        simp [List.getElem?_map, hj]
      simp [List.getD_eq_getElem?_getD, hi, hmi, hj, hmj]
    · have hmj : (row.map (qdq1 1 0))[j]? = some (qdq1 1 0 x) := by
        simp [List.getElem?_map, hj]
      simpa [List.getD_eq_getElem?_getD, hi, hmi, hj, hmj] using qdq1_one_zero_near x

theorem not_found_msg_mentions (func : String) :
    ∃ msg, _raise_obs_not_found_error func = Except.error (PyErr.runtimeError msg) ∧
      hasSubstring func.data msg.data = true := by
  refine ⟨_, rfl, ?_⟩
  simp only [torch_typename, String.data_append, List.append_assoc]
  exact hasSubstring_append_left _ (hasSubstring_head _ _)

theorem mismatch_msg_mentions (func prev_op : String) :
    ∃ msg, _raise_obs_op_mismatch func prev_op = Except.error (PyErr.runtimeError msg) ∧
      hasSubstring func.data msg.data = true ∧ hasSubstring prev_op.data msg.data = true := by
  refine ⟨_, rfl, ?_, ?_⟩
  · simp only [torch_typename, String.data_append, List.append_assoc]
    exact hasSubstring_append_left _ (hasSubstring_head _ _)
  · simp only [torch_typename, String.data_append, List.append_assoc]
    exact hasSubstring_append_left _ (hasSubstring_append_left _ (hasSubstring_append_left _
      (hasSubstring_append_left _ (hasSubstring_head _ _))))

/-! ### Claim theorems -/

/-- C1: the claim says a `prepare`/`convert` call with `inplace=True` fails fast with no
mutation of the caller's model before the failure.  On the code the call does fail
(`assert not inplace`), but only after the generic `torch.quantization.prepare` /
`torch.quantization.convert` has already run with the caller's `inplace=True` flag and
instrumented / converted the caller's model object in place: at the failing input the
caller's model state differs from its pre-call state when the error is raised. -/
theorem inplace_request_mutates_caller_model_before_failure :
    prepare { } (some [0]) true none none none =
      ({ observed := true }, Except.error (PyErr.assertionError "assert not inplace")) ∧
    convert { } none true true none =
      ({ converted := true }, Except.error (PyErr.assertionError "assert not inplace")) ∧
    ({ observed := true } : Model) ≠ { } ∧
    ({ converted := true } : Model) ≠ { } :=
  ⟨rfl, rfl, by decide, by decide⟩

/-- C2 (amended): on an operation-type-mismatch trace failure the raised error carries
a message naming both operations involved (the encountered and the previously recorded
one); on a trace-exhausted failure there is no recorded operation at the current index
and the message names only the encountered operation.  In both cases the helper raises
unconditionally and a verification step either succeeds or propagates exactly such an
error — no recovery path exists. -/
theorem trace_errors_descriptive_and_no_recovery
    (func prev_op : String) (ledger : List SeenOp) (idx : ℕ) :
    (∃ msg, _raise_obs_op_mismatch func prev_op = Except.error (PyErr.runtimeError msg) ∧
      hasSubstring func.data msg.data = true ∧ hasSubstring prev_op.data msg.data = true) ∧
    (∃ msg, _raise_obs_not_found_error func = Except.error (PyErr.runtimeError msg) ∧
      hasSubstring func.data msg.data = true) ∧
    (verifyStep ledger idx func = Except.ok () ∨
      ∃ msg, verifyStep ledger idx func = Except.error (PyErr.runtimeError msg) ∧
        hasSubstring func.data msg.data = true) := by
  refine ⟨mismatch_msg_mentions func prev_op, not_found_msg_mentions func, ?_⟩
  rcases hop : ledger[idx]? with _ | op
  · right
    rcases not_found_msg_mentions func with ⟨msg, hmsg, hsub⟩
    exact ⟨msg, by simp [verifyStep, hop, hmsg], hsub⟩
  · by_cases ht : op.type = func
    · left
      simp [verifyStep, hop, ht]
    · right
      rcases mismatch_msg_mentions func op.type with ⟨msg, hmsg, hsub, _⟩
      exact ⟨msg, by simp [verifyStep, hop, ht, hmsg], hsub⟩

set_option maxRecDepth 8000 in
/-- C2 counterexample: with a ledger whose only recorded operation is `opA`, the
trace-exhausted failure at index 1 on encountering `opB` raises a message that names
`opB` but not `opA` — the only two operations involved in this failure — so not every
trace failure names both operations involved. -/
theorem trace_exhausted_error_names_only_encountered_op :
    verifyStep ledgerOpA 1 "opB" = Except.error (PyErr.runtimeError exhaustedMsgOpB) ∧
    hasSubstring "opB".data exhaustedMsgOpB.data = true ∧
    hasSubstring "opA".data exhaustedMsgOpB.data = false :=
  ⟨rfl, by decide, by decide⟩

/-- C3 (amended): for the two affine schemes the persisted state always includes the
key `weight_axis` — the configured axis under per-channel-affine, the placeholder 0
under per-tensor-affine — and the persisted key set is identical for the two; for
scheme `None`, however, no scale/zero-point/axis buffer is registered at all and
persisting fails, so the structural uniformity does not extend to scheme none. -/
theorem weight_axis_persisted_uniformly_for_affine_schemes
    (in_features out_features : ℕ) (bias_ : Bool) (dt dt' : DType) (s z : ℚ)
    (sv zv : List ℚ) (ax : ℕ) (mPT mPC : Linear)
    (hPT : Linear.init in_features out_features bias_
      (some { qscheme := some QScheme.per_tensor_affine, dtype := dt,
              scale := some (BufVal.scalar s), zero_point := some (BufVal.scalar z),
              axis := none }) = Except.ok mPT)
    (hPC : Linear.init in_features out_features bias_
      (some { qscheme := some QScheme.per_channel_affine, dtype := dt',
              scale := some (BufVal.vector sv), zero_point := some (BufVal.vector zv),
              axis := some ax }) = Except.ok mPC) :
    mPT.weight_axis = some 0 ∧ mPC.weight_axis = some ax ∧
    ∃ sdPT sdPC,
      Linear.save_to_state_dict mPT "" = Except.ok sdPT ∧
      Linear.save_to_state_dict mPC "" = Except.ok sdPC ∧
      sdLookup sdPT "weight_axis" = some (SDVal.axisVal 0) ∧
      sdLookup sdPC "weight_axis" = some (SDVal.axisVal ax) ∧
      sdPT.map Prod.fst = sdPC.map Prod.fst := by
  simp [Linear.init, init_weight_qparams, dictGet, schemeSupported, exceptOkBind] at hPT hPC
  subst hPT
  subst hPC
  refine ⟨rfl, rfl, ?_⟩
  cases bias_ <;>
    simp [Linear.save_to_state_dict, Linear.genericSave, _save_weight_qparams,
      sdInsert, sdLookup, attrOrError, exceptOkBind]

/-- C3 witness: concrete per-tensor and per-channel layers, built and persisted. -/
theorem weight_axis_persisted_uniformly_witness :
    Linear.init 1 1 false (some qpPerTensor) = Except.ok mPT3 ∧
    Linear.init 1 1 false (some qpPerChannel) = Except.ok mPC3 ∧
    (mPT3.weight_axis = some 0 ∧ mPC3.weight_axis = some 0 ∧
      ∃ sdPT sdPC, Linear.save_to_state_dict mPT3 "" = Except.ok sdPT ∧
        Linear.save_to_state_dict mPC3 "" = Except.ok sdPC ∧
        sdLookup sdPT "weight_axis" = some (SDVal.axisVal 0) ∧
        sdLookup sdPC "weight_axis" = some (SDVal.axisVal 0) ∧
        sdPT.map Prod.fst = sdPC.map Prod.fst) :=
  ⟨rfl, rfl, weight_axis_persisted_uniformly_for_affine_schemes 1 1 false DType.quint8
    DType.qint8 1 0 [1, 2] [0, 1] 0 mPT3 mPC3 rfl rfl⟩

/-- C3 counterexample: a reference Linear constructed with scheme `None` — a supported
scheme — has no `weight_axis` (nor `weight_scale`) buffer, and persisting it raises
`AttributeError` instead of producing a state that includes the `weight_axis` key, so
the persisted key set is not the same regardless of scheme and no placeholder 0 is
stored for scheme none. -/
theorem scheme_none_has_no_persisted_weight_axis :
    (Linear.init 1 1 false (some qpNone)).map
        (fun m => (m.weight_axis, m.weight_scale, Linear.save_to_state_dict m "")) =
      Except.ok (none, none, Except.error (PyErr.attributeError "weight_scale")) := rfl

/-- C4: `func_or_mod_needs_quantization` returns true iff the candidate is (exactly) a
member of the registered-function table, or is an `isinstance` (polymorphic) match of
some registered module type; as a pure function of the registry and the candidate it
has no side effects. -/
theorem needs_quantization_iff (R : Registry) (func_or_mod : Candidate) :
    func_or_mod_needs_quantization R func_or_mod = true ↔
      (func_or_mod ∈ R.functions_supported_by_quantization ∨
        ∃ module_type ∈ R.module_types_supported_by_quantization,
          isinstance func_or_mod module_type = true) := by
  by_cases h : func_or_mod ∈ R.functions_supported_by_quantization
  · simp [func_or_mod_needs_quantization, h]
  · simp [func_or_mod_needs_quantization, h, List.any_eq_true]

/-- C5: constructing any reference layer (`Linear`, `Conv1d/2d/3d`, and the shared
`_init_weight_qparams` they all run) with a weight quantization scheme outside
{none, per-tensor-affine, per-channel-affine} raises the assertion error at
construction itself: no layer object is ever produced, so the failure cannot be
deferred to a first forward call. -/
theorem unsupported_qscheme_fails_at_construction
    (in_features out_features : ℕ) (bias_ : Bool) (qp : WeightQParams)
    (in_channels out_channels : ℕ) (kernel_size stride padding dilation : List ℕ)
    (groups : ℕ) (bias : Bool) (padding_mode : String) (c : ConvNd)
    (h : schemeSupported qp.qscheme = false) :
    init_weight_qparams (some qp) = Except.error (PyErr.assertionError
      "qscheme is not support in reference quantized linear module") ∧
    Linear.init in_features out_features bias_ (some qp) = Except.error
      (PyErr.assertionError "qscheme is not support in reference quantized linear module") ∧
    ConvNd.init_weight_qparams_ c (some qp) = Except.error
      (PyErr.assertionError "qscheme is not support in reference quantized linear module") ∧
    Conv1d.init in_channels out_channels kernel_size stride padding dilation groups bias
      padding_mode (some qp) = Except.error
      (PyErr.assertionError "qscheme is not support in reference quantized linear module") ∧
    Conv2d.init in_channels out_channels kernel_size stride padding dilation groups bias
      padding_mode (some qp) = Except.error
      (PyErr.assertionError "qscheme is not support in reference quantized linear module") ∧
    Conv3d.init in_channels out_channels kernel_size stride padding dilation groups bias
      padding_mode (some qp) = Except.error
      (PyErr.assertionError "qscheme is not support in reference quantized linear module") := by
  have h1 : init_weight_qparams (some qp) = Except.error (PyErr.assertionError
      "qscheme is not support in reference quantized linear module") := by
    simp [init_weight_qparams, h]
  refine ⟨h1, ?_, ?_, ?_, ?_, ?_⟩ <;>
    simp [Linear.init, ConvNd.init_weight_qparams_, Conv1d.init, Conv2d.init, Conv3d.init,
      h1, exceptErrorBind]

/-- C5 witness: the symmetric scheme is outside the supported set and construction
fails with the assertion error. -/
theorem unsupported_qscheme_fails_at_construction_witness :
    schemeSupported qpSymmetric.qscheme = false ∧
    Linear.init 2 3 true (some qpSymmetric) = Except.error
      (PyErr.assertionError "qscheme is not support in reference quantized linear module") :=
  ⟨rfl, (unsupported_qscheme_fails_at_construction 2 3 true qpSymmetric 1 1 [1] [1] [0] [1]
    1 true "zeros" convBlank rfl).2.1⟩

/-- C6: for a reference `Linear` whose qparam buffers are registered (every layer with
a non-`None` scheme), saving the state and loading it into a layer restores
`weight_qscheme`, `weight_dtype`, `weight_scale`, `weight_zero_point` and
`weight_axis` to exactly the saved values, and the load path consumes the five keys
before delegating to the generic loader, so none of them ends up in the generic
unexpected-keys list. -/
theorem linear_qparams_save_load_roundtrip
    (m target : Linear) (ws wzp : BufVal) (wax : ℕ)
    (hws : m.weight_scale = some ws) (hzp : m.weight_zero_point = some wzp)
    (hax : m.weight_axis = some wax) :
    ∃ sd loaded unexpected,
      Linear.save_to_state_dict m "" = Except.ok sd ∧
      Linear.load_from_state_dict target sd "" = Except.ok (loaded, unexpected) ∧
      loaded.weight_qscheme = m.weight_qscheme ∧
      loaded.weight_dtype = m.weight_dtype ∧
      loaded.weight_scale = m.weight_scale ∧
      loaded.weight_zero_point = m.weight_zero_point ∧
      loaded.weight_axis = m.weight_axis ∧
      "weight_qscheme" ∉ unexpected ∧ "weight_dtype" ∉ unexpected ∧
      "weight_scale" ∉ unexpected ∧ "weight_zero_point" ∉ unexpected ∧
      "weight_axis" ∉ unexpected := by
  cases hmb : m.bias with
  | none =>
    have hsave6 : Linear.save_to_state_dict m "" = Except.ok
        [("weight", SDVal.mat m.weight), ("weight_scale", SDVal.buf ws),
         ("weight_zero_point", SDVal.buf wzp), ("weight_axis", SDVal.axisVal wax),
         ("weight_qscheme", SDVal.qscheme m.weight_qscheme),
         ("weight_dtype", SDVal.dtype m.weight_dtype)] := by
      simp [Linear.save_to_state_dict, Linear.genericSave, _save_weight_qparams, sdInsert,
        attrOrError, exceptOkBind, hmb, hws, hzp, hax]
    have hstrip : stripQparamKeys "" ["weight_qscheme", "weight_dtype", "weight_scale",
        "weight_zero_point", "weight_axis"] target
        [("weight", SDVal.mat m.weight), ("weight_scale", SDVal.buf ws),
         ("weight_zero_point", SDVal.buf wzp), ("weight_axis", SDVal.axisVal wax),
         ("weight_qscheme", SDVal.qscheme m.weight_qscheme),
         ("weight_dtype", SDVal.dtype m.weight_dtype)] =
        Except.ok ({ target with
                     weight_qscheme := m.weight_qscheme, weight_dtype := m.weight_dtype,
                     weight_scale := some ws, weight_zero_point := some wzp,
                     weight_axis := some wax }, [("weight", SDVal.mat m.weight)]) := by
      simp [stripQparamKeys, sdGetE, sdLookup, sdPop, Linear.setQparamAttr, exceptOkBind]
    refine ⟨_, { target with
                 weight := m.weight,
                 weight_qscheme := m.weight_qscheme, weight_dtype := m.weight_dtype,
                 weight_scale := some ws, weight_zero_point := some wzp,
                 weight_axis := some wax }, [],
            hsave6, ?_, rfl, rfl, hws.symm, hzp.symm, hax.symm,
            by simp, by simp, by simp, by simp, by simp⟩
    rw [Linear.load_from_state_dict, _get_weight_qparam_keys, hstrip, exceptOkBind]
    cases htb : target.bias <;>
      simp [Linear.genericLoad, sdLookup, Linear.localStateNames, htb]
  | some b =>
    have hsave7 : Linear.save_to_state_dict m "" = Except.ok
        [("weight", SDVal.mat m.weight), ("bias", SDVal.vec b),
         ("weight_scale", SDVal.buf ws),
         ("weight_zero_point", SDVal.buf wzp), ("weight_axis", SDVal.axisVal wax),
         ("weight_qscheme", SDVal.qscheme m.weight_qscheme),
         ("weight_dtype", SDVal.dtype m.weight_dtype)] := by
      simp [Linear.save_to_state_dict, Linear.genericSave, _save_weight_qparams, sdInsert,
        attrOrError, exceptOkBind, hmb, hws, hzp, hax]
    have hstrip : stripQparamKeys "" ["weight_qscheme", "weight_dtype", "weight_scale",
        "weight_zero_point", "weight_axis"] target
        [("weight", SDVal.mat m.weight), ("bias", SDVal.vec b),
         ("weight_scale", SDVal.buf ws),
         ("weight_zero_point", SDVal.buf wzp), ("weight_axis", SDVal.axisVal wax),
         ("weight_qscheme", SDVal.qscheme m.weight_qscheme),
         ("weight_dtype", SDVal.dtype m.weight_dtype)] =
        Except.ok ({ target with
                     weight_qscheme := m.weight_qscheme, weight_dtype := m.weight_dtype,
                     weight_scale := some ws, weight_zero_point := some wzp,
                     weight_axis := some wax },
          [("weight", SDVal.mat m.weight), ("bias", SDVal.vec b)]) := by
      simp [stripQparamKeys, sdGetE, sdLookup, sdPop, Linear.setQparamAttr, exceptOkBind]
    cases htb : target.bias with
    | none =>
      refine ⟨_, { target with
                   weight := m.weight,
                   weight_qscheme := m.weight_qscheme, weight_dtype := m.weight_dtype,
                   weight_scale := some ws, weight_zero_point := some wzp,
                   weight_axis := some wax }, ["bias"],
              hsave7, ?_, rfl, rfl, hws.symm, hzp.symm, hax.symm,
              by simp, by simp, by simp, by simp, by simp⟩
      rw [Linear.load_from_state_dict, _get_weight_qparam_keys, hstrip, exceptOkBind]
      simp [Linear.genericLoad, sdLookup, Linear.localStateNames, htb]
    | some tb =>
      refine ⟨_, { target with
                   weight := m.weight, bias := some b,
                   weight_qscheme := m.weight_qscheme, weight_dtype := m.weight_dtype,
                   weight_scale := some ws, weight_zero_point := some wzp,
                   weight_axis := some wax }, [],
              hsave7, ?_, rfl, rfl, hws.symm, hzp.symm, hax.symm,
              by simp, by simp, by simp, by simp, by simp⟩
      rw [Linear.load_from_state_dict, _get_weight_qparam_keys, hstrip, exceptOkBind]
      simp [Linear.genericLoad, sdLookup, Linear.localStateNames, htb]

/-- C6 witness: saving the concrete layer `linPT` and loading into the layer `mPT3`. -/
theorem linear_qparams_save_load_roundtrip_witness :
    linPT.weight_scale = some (BufVal.scalar 1) ∧
    linPT.weight_zero_point = some (BufVal.scalar 0) ∧
    linPT.weight_axis = some 0 ∧
    (∃ sd loaded unexpected,
      Linear.save_to_state_dict linPT "" = Except.ok sd ∧
      Linear.load_from_state_dict mPT3 sd "" = Except.ok (loaded, unexpected) ∧
      loaded.weight_qscheme = linPT.weight_qscheme ∧
      loaded.weight_dtype = linPT.weight_dtype ∧
      loaded.weight_scale = linPT.weight_scale ∧
      loaded.weight_zero_point = linPT.weight_zero_point ∧
      loaded.weight_axis = linPT.weight_axis ∧
      "weight_qscheme" ∉ unexpected ∧ "weight_dtype" ∉ unexpected ∧
      "weight_scale" ∉ unexpected ∧ "weight_zero_point" ∉ unexpected ∧
      "weight_axis" ∉ unexpected) :=
  ⟨rfl, rfl, rfl, linear_qparams_save_load_roundtrip linPT mPT3 (BufVal.scalar 1)
    (BufVal.scalar 0) 0 rfl rfl rfl⟩

/-- C7: `Linear.forward` computes exactly `F.linear` of the input, the
quantize-then-dequantized weight `get_weight()` produces, and the stored bias — in
the exact (floating point, here rational) arithmetic of `F_linear`, never in a
low-precision representation; under the per-tensor-affine scheme the weight used is
elementwise `qdq1 scale zero_point` of the stored weight. -/
theorem linear_forward_is_float_linear_on_dequantized_weight :
    (∀ (m : Linear) (x : Vec),
      Linear.forward m x =
        (Linear.get_weight m).map (fun wd => F_linear x wd.data (m.bias.map Tensor.data))) ∧
    (∀ (m : Linear) (x : Vec) (s z : ℚ) (ax : ℕ),
      m.weight_qscheme = some QScheme.per_tensor_affine →
      m.weight_scale = some (BufVal.scalar s) →
      m.weight_zero_point = some (BufVal.scalar z) →
      m.weight_axis = some ax →
      Linear.forward m x =
        Except.ok (F_linear x (m.weight.data.map (fun row => row.map (qdq1 s z)))
          (m.bias.map Tensor.data))) := by
  constructor
  · intro m x
    cases h : Linear.get_weight m with
    | error e => simp [Linear.forward, h, exceptErrorBind, Except.map]
    | ok wd => simp [Linear.forward, h, exceptOkBind, Except.map]
  · intro m x s z ax hq hs hz ha
    simp [Linear.forward, get_weight_per_tensor m s z ax hq hs hz ha, exceptOkBind]

/-- C7 witness: the concrete per-tensor layer `linPT` on input `[2, 2]`. -/
theorem linear_forward_is_float_linear_on_dequantized_weight_witness :
    linPT.weight_qscheme = some QScheme.per_tensor_affine ∧
    linPT.weight_scale = some (BufVal.scalar 1) ∧
    linPT.weight_zero_point = some (BufVal.scalar 0) ∧
    linPT.weight_axis = some 0 ∧
    Linear.forward linPT [2, 2] =
      Except.ok (F_linear [2, 2] (linPT.weight.data.map (fun row => row.map (qdq1 1 0)))
        (linPT.bias.map Tensor.data)) :=
  ⟨rfl, rfl, rfl, rfl,
    linear_forward_is_float_linear_on_dequantized_weight.2 linPT [2, 2] 1 0 0
      rfl rfl rfl rfl⟩

/-- C8: on a layer (Linear or conv) whose quantization parameters are scale 1 and zero
point 0, `get_weight()` succeeds and every entry of the returned weight is within one
quantization step (one scale unit, i.e. 1) of the corresponding stored weight entry:
the quantize-then-dequantize round trip is a near-identity at trivial parameters. -/
theorem get_weight_trivial_qparams_near_identity
    (m : Linear) (c : ConvNd) (axm axc : ℕ)
    (hq : m.weight_qscheme = some QScheme.per_tensor_affine)
    (hs : m.weight_scale = some (BufVal.scalar 1))
    (hz : m.weight_zero_point = some (BufVal.scalar 0))
    (ha : m.weight_axis = some axm)
    (hqc : c.weight_qscheme = some QScheme.per_tensor_affine)
    (hsc : c.weight_scale = some (BufVal.scalar 1))
    (hzc : c.weight_zero_point = some (BufVal.scalar 0))
    (hac : c.weight_axis = some axc) :
    (∃ wd, Linear.get_weight m = Except.ok wd ∧
      ∀ i j : ℕ, |((wd.data.getD i []).getD j 0) -
        ((m.weight.data.getD i []).getD j 0)| ≤ 1) ∧
    (∃ wd, ConvNd.get_weight c = Except.ok wd ∧
      ∀ i j : ℕ, |((wd.data.getD i []).getD j 0) -
        ((c.weight.data.getD i []).getD j 0)| ≤ 1) := by
  constructor
  · exact ⟨_, get_weight_per_tensor m 1 0 axm hq hs hz ha,
      fun i j => qdq_mat_entry_near m.weight.data i j⟩
  · exact ⟨_, conv_get_weight_per_tensor c 1 0 axc hqc hsc hzc hac,
      fun i j => qdq_mat_entry_near c.weight.data i j⟩

/-- C8 witness: the concrete layers `linPT` and `convPT`. -/
theorem get_weight_trivial_qparams_near_identity_witness :
    linPT.weight_scale = some (BufVal.scalar 1) ∧
    linPT.weight_zero_point = some (BufVal.scalar 0) ∧
    convPT.weight_scale = some (BufVal.scalar 1) ∧
    convPT.weight_zero_point = some (BufVal.scalar 0) ∧
    ((∃ wd, Linear.get_weight linPT = Except.ok wd ∧
      ∀ i j : ℕ, |((wd.data.getD i []).getD j 0) -
        ((linPT.weight.data.getD i []).getD j 0)| ≤ 1) ∧
     (∃ wd, ConvNd.get_weight convPT = Except.ok wd ∧
      ∀ i j : ℕ, |((wd.data.getD i []).getD j 0) -
        ((convPT.weight.data.getD i []).getD j 0)| ≤ 1)) :=
  ⟨rfl, rfl, rfl, rfl,
    get_weight_trivial_qparams_near_identity linPT convPT 0 0
      rfl rfl rfl rfl rfl rfl rfl rfl⟩

/-- C9: `from_float` copies the float layer's shape/configuration fields, stores a
weight (and a bias exactly when the float layer has one) whose data equals the float
layer's and whose autograd history is cut (`grad_fn = none`: the detached copy carries
no gradient tracking), for both `Linear.from_float` and `Conv1d.from_float`. -/
theorem from_float_copies_config_and_detaches
    (float_linear : NNLinear) (wqp : Option WeightQParams) (m : Linear)
    (float_conv : NNConv1d) (wqpc : Option WeightQParams) (c : ConvNd)
    (hm : Linear.from_float float_linear wqp = Except.ok m)
    (hc : Conv1d.from_float float_conv wqpc = Except.ok c) :
    (m.in_features = float_linear.in_features ∧
     m.out_features = float_linear.out_features ∧
     m.weight.data = float_linear.weight.data ∧ m.weight.grad_fn = none ∧
     (m.bias.isSome ↔ float_linear.bias.isSome) ∧
     (∀ b, float_linear.bias = some b →
        m.bias = some { data := b.data, requires_grad := true, grad_fn := none })) ∧
    (c.in_channels = float_conv.in_channels ∧
     c.out_channels = float_conv.out_channels ∧
     c.kernel_size = float_conv.kernel_size ∧ c.stride = float_conv.stride ∧
     c.padding = float_conv.padding ∧ c.dilation = float_conv.dilation ∧
     c.groups = float_conv.groups ∧ c.padding_mode = float_conv.padding_mode ∧
     c.weight.data = float_conv.weight.data ∧ c.weight.grad_fn = none ∧
     (c.bias.isSome ↔ float_conv.bias.isSome) ∧
     (∀ b, float_conv.bias = some b →
        c.bias = some { data := b.data, requires_grad := true, grad_fn := none })) := by
  constructor
  · cases hq : init_weight_qparams wqp with
    | error e =>
      rw [Linear.from_float, Linear.init] at hm
      simp [hq, exceptErrorBind] at hm
    | ok q =>
      cases hb : float_linear.bias with
      | none =>
        rw [Linear.from_float, Linear.init] at hm
        simp [hq, hb, exceptOkBind] at hm
        subst hm
        simp [Parameter, Tensor.detach, hb]
      | some b =>
        rw [Linear.from_float, Linear.init] at hm
        simp [hq, hb, exceptOkBind] at hm
        subst hm
        simp [Parameter, Tensor.detach, hb]
  · cases hq : init_weight_qparams wqpc with
    | error e =>
      rw [Conv1d.from_float, Conv1d.init, ConvNd.init_weight_qparams_] at hc
      simp [hq, exceptErrorBind] at hc
    | ok q =>
      cases hb : float_conv.bias with
      | none =>
        rw [Conv1d.from_float, Conv1d.init, ConvNd.init_weight_qparams_] at hc
        simp [hq, hb, exceptOkBind] at hc
        subst hc
        simp [Parameter, Tensor.detach, hb]
      | some b =>
        rw [Conv1d.from_float, Conv1d.init, ConvNd.init_weight_qparams_] at hc
        simp [hq, hb, exceptOkBind] at hc
        subst hc
        simp [Parameter, Tensor.detach, hb]

/-- C9 witness: the concrete float layers `flW` (with bias and autograd history) and
`fcW` (bias-free), converted with the per-tensor qparams `qpPerTensor`. -/
theorem from_float_copies_config_and_detaches_witness :
    Linear.from_float flW (some qpPerTensor) = Except.ok mW ∧
    Conv1d.from_float fcW (some qpPerTensor) = Except.ok cW ∧
    mW.weight.data = flW.weight.data ∧ mW.weight.grad_fn = none ∧
    (cW.bias.isSome ↔ fcW.bias.isSome) := by
  have h := from_float_copies_config_and_detaches flW (some qpPerTensor) mW fcW
    (some qpPerTensor) cW rfl rfl
  exact ⟨rfl, rfl, h.1.2.2.1, h.1.2.2.2.1, h.2.2.2.2.2.2.2.2.2.2.2.1⟩

/-- C10: a reference `Linear` constructed with `weight_qscheme = None` registers no
`weight_scale`, `weight_zero_point` or `weight_axis` buffer, and `get_weight()` on such
a layer raises `AttributeError` (on `weight_scale`, the first absent attribute read)
instead of returning the unmodified weight. -/
theorem scheme_none_get_weight_attribute_error
    (in_features out_features : ℕ) (bias_ : Bool) (qp : WeightQParams)
    (h : qp.qscheme = none) :
    ∃ m : Linear,
      Linear.init in_features out_features bias_ (some qp) = Except.ok m ∧
      m.weight_scale = none ∧ m.weight_zero_point = none ∧ m.weight_axis = none ∧
      Linear.get_weight m = Except.error (PyErr.attributeError "weight_scale") := by
  refine ⟨{ in_features := in_features, out_features := out_features,
            weight := { data := zerosMat out_features in_features, requires_grad := true,
                        grad_fn := none },
            bias := if bias_ then
                some { data := zerosVec out_features, requires_grad := true, grad_fn := none }
              else none,
            weight_qscheme := none, weight_dtype := qp.dtype,
            weight_scale := none, weight_zero_point := none, weight_axis := none },
          ?_, rfl, rfl, rfl, rfl⟩
  simp [Linear.init, init_weight_qparams, h, schemeSupported, exceptOkBind]

/-- C10 witness: a concrete scheme-`None` layer. -/
theorem scheme_none_get_weight_attribute_error_witness :
    qpNone.qscheme = none ∧
    ∃ m : Linear,
      Linear.init 1 1 false (some qpNone) = Except.ok m ∧
      m.weight_scale = none ∧ m.weight_zero_point = none ∧ m.weight_axis = none ∧
      Linear.get_weight m = Except.error (PyErr.attributeError "weight_scale") :=
  ⟨rfl, scheme_none_get_weight_attribute_error 1 1 false qpNone rfl⟩

end Pytorch
